import Mathlib

/-!
Verification of the `KindaLocalRepository` layer (src/src/index.js): a shallow
embedding of its data model and operations, and theorems settling the spec's
claims about them.

Modelling conventions:
* JavaScript object identity is modelled with an `addr : Nat` tag; the root
  repository back-pointer (`this.repository`, installed by the abstract
  repository layer) is the field `repositoryAddr`.  `Object.create(this)`
  yields a fresh object, hence a fresh `addr`.
* Asynchronous store calls are modelled by passing the store's response as an
  explicit argument; emitted events are collected in result records.
* Item values are opaque (`V`); the core never inspects them.
-/

namespace KindaLocalRepository

def VERSION : Nat := 1

def RESPIRATION_RATE : Nat := 250

/-- Error taxonomy of the repository layer (spec section 7). -/
inductive RepoError where
  | NotFound
  | AlreadyExists
  | UnknownClass
  | InitInsideTransaction
  | CannotDowngrade
  | StoreError
  deriving DecidableEq, Repr

/-- Events emitted by the repository layer. -/
inductive Event where
  | didInitialize
  | didCreate
  | didPutItem
  | didDeleteItem
  | upgradeDidStart
  | upgradeDidStop
  | willDestroy
  | didDestroy
  deriving DecidableEq, Repr

/-- Options bag passed to operations (errorIfMissing defaults to true,
errorIfExists to false, matching the store's documented defaults). -/
structure Options where
  errorIfMissing : Bool := true
  errorIfExists : Bool := false
  createIfMissing : Bool := false
  deriving DecidableEq, Repr

/-- An item as the repository sees it: class name (`item.class.name`), the
derived-first class chain (`item.classNames`), primary key, opaque value, and
the `isNew` flag.  The core treats the value opaquely. -/
structure Item (V : Type) where
  className : String
  classNames : List String
  primaryKeyValue : String
  value : V
  isNew : Bool
  deriving DecidableEq, Repr

/-- A record returned by the object database: `{ classes, value }` where
`classes[0]` is the most-derived class owning the item. -/
structure StoreResult (V : Type) where
  classes : List String
  value : V
  deriving DecidableEq, Repr

/-- A registered collection class: the name of its item class and the
derived-first class chain its items carry. -/
structure CollectionClass where
  itemClassName : String
  classNames : List String
  deriving DecidableEq, Repr

/-- Modelled from the spec: `createCollectionFromItemClassName` lives in the
abstract repository layer (kinda-abstract-repository), which is not under
src/.  Spec section 4.A: a lookup from class name to collection factory that
returns a collection backed by the registered class of that name and fails
with `UnknownClass` if the name is not registered.  The optional per-call
cache only memoises collection instances and does not change the result, so
it is not modelled. -/
def createCollectionFromItemClassName (classes : List CollectionClass)
    (name : String) : Except RepoError CollectionClass :=
  match classes.find? (fun c => c.itemClassName == name) with
  | some c => Except.ok c
  | none => Except.error RepoError.UnknownClass

/-- Modelled from the spec: `Collection#unserializeItem` lives in
kinda-collection, which is not under src/.  Spec sections 3 and 4.E: it
materialises a fresh item of the collection's item class from a stored value;
`keyOf` abstracts extraction of the primary key from the serialized value. -/
def unserializeItem {V : Type} (keyOf : V → String) (c : CollectionClass)
    (v : V) : Item V :=
  { className := c.itemClassName
    classNames := c.classNames
    primaryKeyValue := keyOf v
    value := v
    isNew := false }

/-! ## getItem (src/src/index.js lines 165-179) -/

/-- `getItem(item, options)`.  The store's answer to
`objectDatabase.getItem(className, key, options)` is passed in as
`storeResult`.  The result pairs the value returned to the caller with the
final state of the item object the caller passed in (modelling the in-place
`replaceValue` mutation). -/
def getItem {V : Type} (classes : List CollectionClass) (keyOf : V → String)
    (item : Item V) (storeResult : Option (StoreResult V)) :
    Except RepoError (Option (Item V) × Item V) :=
  match storeResult with
  | none => Except.ok (none, item)
  | some result =>
    match result.classes with
    | [] =>
      -- store invariant (spec section 3): `classes` is non-empty; on an
      -- empty list the JS code would fail inside the registry lookup
      Except.error RepoError.StoreError
    | resultClassName :: _ =>
      if resultClassName = item.className then
        let item' := { item with value := result.value }
        Except.ok (some item', item')
      else
        match createCollectionFromItemClassName classes resultClassName with
        | Except.error e => Except.error e
        | Except.ok realCollection =>
          Except.ok (some (unserializeItem keyOf realCollection result.value), item)

/-! ## putItem (src/src/index.js lines 181-190) -/

/-- The visible effect of a `putItem` call: the arguments of the store call,
the caller's options object after the call (the source clones `options`
before mutating it, so it is returned unchanged), and the emitted events. -/
structure PutItemEffect (V : Type) where
  storeClassNames : List String
  storeKey : String
  storeValue : V
  storeOptions : Options
  callerOptions : Options
  events : List Event
  deriving DecidableEq, Repr

/-- `putItem(item, options)`.  `item.serialize()` is modelled as the opaque
value itself. -/
def putItem {V : Type} (item : Item V) (options : Options) : PutItemEffect V :=
  -- options = _.clone(options); the mutation below touches the clone only
  let cloned := options
  let cloned := if item.isNew then { cloned with errorIfExists := true } else cloned
  { storeClassNames := item.classNames
    storeKey := item.primaryKeyValue
    storeValue := item.value
    storeOptions := cloned
    callerOptions := options
    events := [Event.didPutItem] }

/-! ## deleteItem (src/src/index.js lines 192-201) -/

/-- The visible effect of a `deleteItem` call. -/
structure DeleteItemEffect where
  storeClassName : String
  storeKey : String
  storeOptions : Options
  returned : Bool
  events : List Event
  deriving DecidableEq, Repr

/-- `deleteItem(item, options)`.  The store's answer to
`objectDatabase.deleteItem(className, key, options)` is passed in as
`storeResponse`; a store error propagates. -/
def deleteItem {V : Type} (item : Item V) (options : Options)
    (storeResponse : Except RepoError Bool) : Except RepoError DeleteItemEffect :=
  match storeResponse with
  | Except.error e => Except.error e
  | Except.ok hasBeenDeleted =>
    Except.ok
      { storeClassName := item.className
        storeKey := item.primaryKeyValue
        storeOptions := options
        returned := hasBeenDeleted
        events := if hasBeenDeleted then [Event.didDeleteItem] else [] }

/-- Modelled from the spec: the object store's `deleteItem` (spec sections 6
and 7, the store is an external collaborator): deleting a present key answers
`true`; deleting a missing key fails `NotFound` when `errorIfMissing` is set
and answers `false` otherwise. -/
def storeDeleteResponse (present : Bool) (options : Options) :
    Except RepoError Bool :=
  if present then Except.ok true
  else if options.errorIfMissing then Except.error RepoError.NotFound
  else Except.ok false

/-! ## Bulk operations (src/src/index.js lines 203-256) -/

/-- The shared per-result unserialisation loop of `getItems` and `findItems`:
each store result is materialised at its most-derived class, and after every
`RESPIRATION_RATE`-th item the loop yields (`await util.timeout(0)`).  The
second component of the result counts those yields;
`iterationsCount` is the running item counter. -/
def unserialiseLoop {V : Type} (classes : List CollectionClass)
    (keyOf : V → String) :
    List (StoreResult V) → Nat → Except RepoError (List (Item V) × Nat)
  | [], _ => Except.ok ([], 0)
  | r :: rest, iterationsCount =>
    match r.classes with
    | [] => Except.error RepoError.StoreError
    | resultClassName :: _ =>
      match createCollectionFromItemClassName classes resultClassName with
      | Except.error e => Except.error e
      | Except.ok realCollection =>
        match unserialiseLoop classes keyOf rest (iterationsCount + 1) with
        | Except.error e => Except.error e
        | Except.ok (items, yields) =>
          Except.ok (unserializeItem keyOf realCollection r.value :: items,
            (if (iterationsCount + 1) % RESPIRATION_RATE = 0 then 1 else 0) + yields)

/-- `getItems(items, options)`: empty input short-circuits to `[]`; otherwise
the store's bulk answer (`results`) is run through the respiration-paced
unserialisation loop starting from a zero counter. -/
def getItems {V : Type} (classes : List CollectionClass) (keyOf : V → String)
    (items : List (Item V)) (results : List (StoreResult V)) :
    Except RepoError (List (Item V) × Nat) :=
  if items.length = 0 then Except.ok ([], 0)
  else unserialiseLoop classes keyOf results 0

/-- `findItems(collection, options)`: the store's answer is run through the
same respiration-paced loop. -/
def findItems {V : Type} (classes : List CollectionClass) (keyOf : V → String)
    (results : List (StoreResult V)) : Except RepoError (List (Item V) × Nat) :=
  unserialiseLoop classes keyOf results 0

/-- `forEachItems(collection, options, fn, thisArg)`: each store record is
unserialised at its most-derived class and handed to `fn` (the returned list
collects the items passed to `fn`, in order).  The second component counts
`util.timeout(0)` yields; the source body of `forEachItems` contains no such
call and no iteration counter. -/
def forEachItems {V : Type} (classes : List CollectionClass)
    (keyOf : V → String) :
    List (StoreResult V) → Except RepoError (List (Item V) × Nat)
  | [] => Except.ok ([], 0)
  | r :: rest =>
    match r.classes with
    | [] => Except.error RepoError.StoreError
    | resultClassName :: _ =>
      match createCollectionFromItemClassName classes resultClassName with
      | Except.error e => Except.error e
      | Except.ok realCollection =>
        match forEachItems classes keyOf rest with
        | Except.error e => Except.error e
        | Except.ok (items, yields) =>
          Except.ok (unserializeItem keyOf realCollection r.value :: items, yields)

/-! ## Repository handles, transactions (src/src/index.js lines 147-161) -/

/-- A repository handle.  `addr` models JavaScript object identity and
`repositoryAddr` the root back-pointer `this.repository`; on the root
repository the two coincide. -/
structure Repo (DB : Type) where
  addr : Nat
  repositoryAddr : Nat
  name : String
  objectDatabase : DB
  hasBeenInitialized : Bool
  isInitializing : Bool
  deriving DecidableEq

/-- `isInsideTransaction`: identity inequality with the root repository
object (`this !== this.repository`). -/
def isInsideTransaction {DB : Type} (h : Repo DB) : Bool :=
  h.addr != h.repositoryAddr

/-- What a `transaction(fn, options)` call does before running `fn`: whether
it awaited `initializeRepository`, whether it opened a store-level
transaction, and the handle passed to `fn`. -/
structure TransactionStep (DB : Type) where
  ranInitialize : Bool
  openedStoreTransaction : Bool
  fnArg : Repo DB
  deriving DecidableEq

/-- `transaction(fn, options)`.  `tr` is the transactional handle supplied by
`objectDatabase.transaction`; `freshAddr` is the identity of the view created
by `Object.create(this)`. -/
def transaction {DB : Type} (h : Repo DB) (tr : DB) (freshAddr : Nat) :
    TransactionStep DB :=
  if isInsideTransaction h then
    { ranInitialize := false, openedStoreTransaction := false, fnArg := h }
  else
    { ranInitialize := true
      openedStoreTransaction := true
      fnArg := { h with addr := freshAddr, objectDatabase := tr } }

/-! ## Repository record, creation, upgrade (src/src/index.js lines 78-130) -/

/-- The persisted singleton repository record. -/
structure RepositoryRecord where
  name : String
  version : Nat
  id : String
  deriving DecidableEq, Repr

/-- A `put` issued through `saveRepositoryRecord`: the key is
`[name, "$Repository"]`. -/
structure SaveCall where
  keyName : String
  record : RepositoryRecord
  options : Options
  deriving DecidableEq, Repr

/-- `saveRepositoryRecord(record, tr, errorIfExists)`:
`put([name, "$Repository"], record, {errorIfExists, createIfMissing: !errorIfExists})`. -/
def saveRepositoryRecord (name : String) (record : RepositoryRecord)
    (errIfExists : Bool) : SaveCall :=
  { keyName := name
    record := record
    options := { errorIfExists := errIfExists, createIfMissing := !errIfExists } }

/-- The visible effect of `createRepositoryIfDoesNotExist`. -/
structure CreateEffect where
  usedStoreTransaction : Bool
  loadErrorIfMissing : Bool
  write : Option SaveCall
  events : List Event
  returned : Bool
  deriving DecidableEq, Repr

/-- `createRepositoryIfDoesNotExist()`: inside `store.transaction`, load the
record with `errorIfMissing = false` (`existing` is the store's answer); when
absent, save `{name, version: VERSION, id: idgen(16)}` with
`errorIfExists = true` and emit `didCreate`; `newId` abstracts `idgen(16)`. -/
def createRepositoryIfDoesNotExist (name : String)
    (existing : Option RepositoryRecord) (newId : String) : CreateEffect :=
  match existing with
  | none =>
    { usedStoreTransaction := true
      loadErrorIfMissing := false
      write := some (saveRepositoryRecord name ⟨name, VERSION, newId⟩ true)
      events := [Event.didCreate]
      returned := true }
  | some _ =>
    { usedStoreTransaction := true
      loadErrorIfMissing := false
      write := none
      events := []
      returned := false }

/-- The visible effect of `upgradeRepository`. -/
structure UpgradeEffect where
  write : Option SaveCall
  events : List Event
  deriving DecidableEq, Repr

/-- `upgradeRepository()`: `record` is the loaded repository record.  Equal
version: no-op.  Greater version: fail (cannot downgrade).  Lesser version:
emit `upgradeDidStart`, set `version = VERSION`, save (default
`errorIfExists`, hence falsy), emit `upgradeDidStop`. -/
def upgradeRepository (name : String) (record : RepositoryRecord) :
    Except RepoError UpgradeEffect :=
  if record.version = VERSION then
    Except.ok { write := none, events := [] }
  else if record.version > VERSION then
    Except.error RepoError.CannotDowngrade
  else
    Except.ok
      { write := some (saveRepositoryRecord name { record with version := VERSION } false)
        events := [Event.upgradeDidStart, Event.upgradeDidStop] }

/-! ## initializeRepository (src/src/index.js lines 53-76) -/

deriving instance DecidableEq for Except

/-- Outcomes of the external steps `initializeRepository` performs, in order:
`objectDatabase.initializeObjectDatabase()`, the result of
`createRepositoryIfDoesNotExist()`, `database.lockDatabase()`, and
`upgradeRepository()` (under the lock). -/
structure InitEnv where
  initObjectDatabase : Except RepoError Unit
  createOutcome : Except RepoError Bool
  lockOutcome : Except RepoError Unit
  upgradeOutcome : Except RepoError Unit
  deriving DecidableEq

/-- Result of an `initializeRepository` call: the handle's final state (the
`finally` block always resets `isInitializing`), the events the function
itself emits (sub-operations' events are modelled in their own definitions),
the error if one propagated, and whether the initialisation body ran (i.e.
whether the object store was touched at all). -/
structure InitResult (DB : Type) where
  state : Repo DB
  events : List Event
  error : Option RepoError
  ranBody : Bool
  deriving DecidableEq

/-- `initializeRepository()`. -/
def initializeRepository {DB : Type} (s : Repo DB) (env : InitEnv) :
    InitResult DB :=
  if s.hasBeenInitialized then { state := s, events := [], error := none, ranBody := false }
  else if s.isInitializing then { state := s, events := [], error := none, ranBody := false }
  else if isInsideTransaction s then
    { state := s, events := [], error := some RepoError.InitInsideTransaction, ranBody := false }
  else
    -- this.isInitializing = true; try { ... } finally { this.isInitializing = false }
    let s1 := { s with isInitializing := true }
    match env.initObjectDatabase with
    | Except.error e =>
      { state := { s1 with isInitializing := false }, events := [], error := some e, ranBody := true }
    | Except.ok _ =>
      match env.createOutcome with
      | Except.error e =>
        { state := { s1 with isInitializing := false }, events := [], error := some e, ranBody := true }
      | Except.ok hasBeenCreated =>
        if hasBeenCreated then
          { state := { s1 with hasBeenInitialized := true, isInitializing := false }
            events := [Event.didInitialize]
            error := none
            ranBody := true }
        else
          match env.lockOutcome with
          | Except.error e =>
            { state := { s1 with isInitializing := false }, events := [], error := some e, ranBody := true }
          | Except.ok _ =>
            match env.upgradeOutcome with
            | Except.error e =>
              { state := { s1 with isInitializing := false }, events := [], error := some e, ranBody := true }
            | Except.ok _ =>
              { state := { s1 with hasBeenInitialized := true, isInitializing := false }
                events := [Event.didInitialize]
                error := none
                ranBody := true }

/-! ## Theorems -/

theorem createCollection_className (classes : List CollectionClass)
    (name : String) (c : CollectionClass)
    (h : createCollectionFromItemClassName classes name = Except.ok c) :
    c.itemClassName = name := by
  unfold createCollectionFromItemClassName at h
  cases hf : classes.find? (fun c => c.itemClassName == name) with
  | none => rw [hf] at h; exact absurd h (by simp)
  | some c' =>
    rw [hf] at h
    have hp : (fun x => x.itemClassName == name) c' = true :=
      @List.find?_some CollectionClass (fun x => x.itemClassName == name) c' classes hf
    have hp2 : c'.itemClassName = name := eq_of_beq hp
    rw [Except.ok.inj h] at hp2
    exact hp2

/-- C1: `getItem` returns `undefined` and leaves the passed item untouched
when the store reports absence; when the stored most-derived class matches the
item's class it refreshes the item's value in place and returns that same
item; otherwise it materialises the stored value through the registry at its
most-derived class `D`, so an item of derived class `D` fetched through a base
collection comes back with class `D` (the passed item is left untouched). -/
theorem C1_getItem_polymorphic {V : Type} (classes : List CollectionClass)
    (keyOf : V → String) (item : Item V) (v : V) (rest : List String)
    (D : String) (c : CollectionClass) :
    getItem classes keyOf item none = Except.ok (none, item)
  ∧ getItem classes keyOf item (some ⟨item.className :: rest, v⟩)
      = Except.ok (some { item with value := v }, { item with value := v })
  ∧ (D ≠ item.className →
      createCollectionFromItemClassName classes D = Except.ok c →
      getItem classes keyOf item (some ⟨D :: rest, v⟩)
        = Except.ok (some (unserializeItem keyOf c v), item)
      ∧ (unserializeItem keyOf c v).className = D) := by
  refine ⟨rfl, by simp [getItem], ?_⟩
  intro hD hc
  constructor
  · simp [getItem, hD, hc]
  · simpa [unserializeItem] using createCollection_className classes D c hc

theorem C1_getItem_polymorphic_witness :
    (("D" : String) ≠ "B")
  ∧ createCollectionFromItemClassName [⟨"D", ["D", "B"]⟩] "D"
      = Except.ok ⟨"D", ["D", "B"]⟩
  ∧ getItem [⟨"D", ["D", "B"]⟩] (fun _ : Nat => "k")
        ⟨"B", ["B"], "k", 0, false⟩ (some ⟨["D"], 7⟩)
      = Except.ok (some (unserializeItem (fun _ : Nat => "k") ⟨"D", ["D", "B"]⟩ 7),
          ⟨"B", ["B"], "k", 0, false⟩)
  ∧ (unserializeItem (fun _ : Nat => "k") ⟨"D", ["D", "B"]⟩ 7).className = "D" := by
  have h := (C1_getItem_polymorphic [⟨"D", ["D", "B"]⟩] (fun _ : Nat => "k")
    ⟨"B", ["B"], "k", 0, false⟩ 7 [] "D" ⟨"D", ["D", "B"]⟩).2.2
    (by decide) (by decide)
  exact ⟨by decide, by decide, h.1, h.2⟩

/-- C2: when the handle is already inside a transaction (identity with the
root repository object is the sole test), `transaction(fn)` invokes `fn` on
that same handle without opening a store transaction; otherwise it
initialises, opens a store-level transaction and runs `fn` on a shallow view
whose only rebound field is `objectDatabase` (plus a fresh identity), and the
view reports `isInsideTransaction` while the root handle does not. -/
theorem C2_transaction_scope {DB : Type} (h : Repo DB) (tr : DB)
    (freshAddr : Nat) :
    (isInsideTransaction h = false ↔ h.addr = h.repositoryAddr)
  ∧ (isInsideTransaction h = true →
      transaction h tr freshAddr
        = { ranInitialize := false, openedStoreTransaction := false, fnArg := h })
  ∧ (isInsideTransaction h = false →
      transaction h tr freshAddr
        = { ranInitialize := true, openedStoreTransaction := true,
            fnArg := { h with addr := freshAddr, objectDatabase := tr } }
      ∧ (transaction h tr freshAddr).fnArg.objectDatabase = tr
      ∧ (transaction h tr freshAddr).fnArg.name = h.name
      ∧ (transaction h tr freshAddr).fnArg.repositoryAddr = h.repositoryAddr
      ∧ (transaction h tr freshAddr).fnArg.hasBeenInitialized = h.hasBeenInitialized
      ∧ (transaction h tr freshAddr).fnArg.isInitializing = h.isInitializing
      ∧ (freshAddr ≠ h.repositoryAddr →
          isInsideTransaction (transaction h tr freshAddr).fnArg = true)) := by
  refine ⟨by simp [isInsideTransaction], ?_, ?_⟩
  · intro ht
    simp [transaction, ht]
  · intro hf
    have heq : h.addr = h.repositoryAddr := by
      simpa [isInsideTransaction] using hf
    refine ⟨?_, ?_, ?_, ?_, ?_, ?_, ?_⟩ <;>
      simp [transaction, isInsideTransaction, heq]

theorem C2_transaction_scope_witness :
    isInsideTransaction (⟨0, 0, "r", (), false, false⟩ : Repo Unit) = false
  ∧ transaction (⟨0, 0, "r", (), false, false⟩ : Repo Unit) () 1
      = { ranInitialize := true, openedStoreTransaction := true,
          fnArg := ⟨1, 0, "r", (), false, false⟩ }
  ∧ ((1 : Nat) ≠ 0)
  ∧ isInsideTransaction
      (transaction (⟨0, 0, "r", (), false, false⟩ : Repo Unit) () 1).fnArg = true := by
  have h := (C2_transaction_scope (⟨0, 0, "r", (), false, false⟩ : Repo Unit) () 1).2.2
    (by decide)
  exact ⟨by decide, h.1, by decide, h.2.2.2.2.2.2 (by decide)⟩

/-- C4: `putItem` forces `errorIfExists = true` for new items, doing so on a
local clone so the caller's options are never mutated; for non-new items the
caller's `errorIfExists` is passed through unchanged, as are the other option
fields. -/
theorem C4_putItem_options {V : Type} (item : Item V) (options : Options) :
    (putItem item options).callerOptions = options
  ∧ (putItem item options).storeOptions.errorIfExists
      = (item.isNew || options.errorIfExists)
  ∧ (putItem item options).storeOptions.errorIfMissing = options.errorIfMissing
  ∧ (putItem item options).storeOptions.createIfMissing = options.createIfMissing := by
  unfold putItem
  cases hn : item.isNew <;> simp

/-- C5: `deleteItem` returns the store's `hasBeenDeleted` boolean unchanged
and emits `didDeleteItem` iff it is true; with `errorIfMissing = false` the
store answers `false` for a missing key, so the call returns `false` without
raising and emits nothing. -/
theorem C5_deleteItem_result {V : Type} (item : Item V) (options : Options)
    (b : Bool) :
    deleteItem item options (Except.ok b)
      = Except.ok
          { storeClassName := item.className, storeKey := item.primaryKeyValue,
            storeOptions := options, returned := b,
            events := if b then [Event.didDeleteItem] else [] }
  ∧ (deleteItem item options (Except.ok b)).map
      (fun eff => eff.events.count Event.didDeleteItem)
      = Except.ok (if b then 1 else 0)
  ∧ deleteItem item { options with errorIfMissing := false }
      (storeDeleteResponse false { options with errorIfMissing := false })
      = Except.ok
          { storeClassName := item.className, storeKey := item.primaryKeyValue,
            storeOptions := { options with errorIfMissing := false },
            returned := false, events := [] } := by
  refine ⟨rfl, ?_, rfl⟩
  cases b <;> rfl

/-- C7: on a not-yet-initialized transactional view, `initializeRepository`
fails with the inside-transaction error before performing any initialisation
step: state untouched, no events, body not run. -/
theorem C7_init_inside_transaction {DB : Type} (s : Repo DB) (env : InitEnv)
    (hinit : s.hasBeenInitialized = false) (hbusy : s.isInitializing = false)
    (htr : isInsideTransaction s = true) :
    initializeRepository s env
      = { state := s, events := [],
          error := some RepoError.InitInsideTransaction, ranBody := false } := by
  simp [initializeRepository, hinit, hbusy, htr]

theorem C7_init_inside_transaction_witness :
    (⟨1, 0, "r", (), false, false⟩ : Repo Unit).hasBeenInitialized = false
  ∧ (⟨1, 0, "r", (), false, false⟩ : Repo Unit).isInitializing = false
  ∧ isInsideTransaction (⟨1, 0, "r", (), false, false⟩ : Repo Unit) = true
  ∧ initializeRepository (⟨1, 0, "r", (), false, false⟩ : Repo Unit)
      ⟨Except.ok (), Except.ok true, Except.ok (), Except.ok ()⟩
      = { state := ⟨1, 0, "r", (), false, false⟩, events := [],
          error := some RepoError.InitInsideTransaction, ranBody := false } :=
  ⟨rfl, rfl, rfl,
    C7_init_inside_transaction (⟨1, 0, "r", (), false, false⟩ : Repo Unit)
      ⟨Except.ok (), Except.ok true, Except.ok (), Except.ok ()⟩ rfl rfl rfl⟩

/-- C8: `upgradeRepository` is a no-op (no write, no event) at the current
version, fails with the cannot-downgrade error without writing on a newer
persisted version, and on an older version emits `upgradeDidStart`, saves the
record with `version = VERSION`, and emits `upgradeDidStop`. -/
theorem C8_upgradeRepository_cases (name : String) (record : RepositoryRecord) :
    (record.version = VERSION →
      upgradeRepository name record = Except.ok { write := none, events := [] })
  ∧ (record.version > VERSION →
      upgradeRepository name record = Except.error RepoError.CannotDowngrade)
  ∧ (record.version < VERSION →
      upgradeRepository name record
        = Except.ok
            { write := some (saveRepositoryRecord name
                { record with version := VERSION } false)
              events := [Event.upgradeDidStart, Event.upgradeDidStop] }) := by
  refine ⟨fun h => by simp [upgradeRepository, h], fun h => ?_, fun h => ?_⟩
  · have hne : record.version ≠ VERSION := Nat.ne_of_gt h
    simp [upgradeRepository, hne, h]
  · have hne : record.version ≠ VERSION := Nat.ne_of_lt h
    have hng : ¬ record.version > VERSION := by omega
    simp [upgradeRepository, hne, hng]

theorem C8_upgradeRepository_witness :
    (⟨"r", 1, "x"⟩ : RepositoryRecord).version = VERSION
  ∧ upgradeRepository "r" ⟨"r", 1, "x"⟩ = Except.ok { write := none, events := [] }
  ∧ (⟨"r", 2, "x"⟩ : RepositoryRecord).version > VERSION
  ∧ upgradeRepository "r" ⟨"r", 2, "x"⟩ = Except.error RepoError.CannotDowngrade
  ∧ (⟨"r", 0, "x"⟩ : RepositoryRecord).version < VERSION
  ∧ upgradeRepository "r" ⟨"r", 0, "x"⟩
      = Except.ok
          { write := some (saveRepositoryRecord "r" ⟨"r", 1, "x"⟩ false)
            events := [Event.upgradeDidStart, Event.upgradeDidStop] } :=
  ⟨rfl, (C8_upgradeRepository_cases "r" ⟨"r", 1, "x"⟩).1 rfl,
    by decide, (C8_upgradeRepository_cases "r" ⟨"r", 2, "x"⟩).2.1 (by decide),
    by decide, (C8_upgradeRepository_cases "r" ⟨"r", 0, "x"⟩).2.2 (by decide)⟩

/-- C9: `createRepositoryIfDoesNotExist` runs inside a store-level
transaction, loads with `errorIfMissing = false`, and exactly when the record
is absent writes `{name, version = VERSION, id = idgen(16)}` with
`errorIfExists = true` (hence `createIfMissing = false`), emits `didCreate`,
and returns `true`; when the record exists it writes nothing, emits nothing,
and returns `false`. -/
theorem C9_createRepository (name newId : String) (r : RepositoryRecord) :
    createRepositoryIfDoesNotExist name none newId
      = { usedStoreTransaction := true
          loadErrorIfMissing := false
          write := some
            { keyName := name
              record := ⟨name, VERSION, newId⟩
              options :=
                { errorIfMissing := true, errorIfExists := true,
                  createIfMissing := false } }
          events := [Event.didCreate]
          returned := true }
  ∧ createRepositoryIfDoesNotExist name (some r) newId
      = { usedStoreTransaction := true
          loadErrorIfMissing := false
          write := none
          events := []
          returned := false } :=
  ⟨rfl, rfl⟩

theorem initializeRepository_success_shape {DB : Type} (s : Repo DB)
    (env : InitEnv) (hinit : s.hasBeenInitialized = false)
    (hbusy : s.isInitializing = false) (htr : isInsideTransaction s = false)
    (hok : (initializeRepository s env).error = none) :
    initializeRepository s env
      = { state := { s with hasBeenInitialized := true, isInitializing := false }
          events := [Event.didInitialize]
          error := none
          ranBody := true } := by
  obtain ⟨i, cr, l, u⟩ := env
  cases i with
  | error e => simp [initializeRepository, hinit, hbusy, htr] at hok
  | ok _ =>
    cases cr with
    | error e => simp [initializeRepository, hinit, hbusy, htr] at hok
    | ok created =>
      cases created with
      | true => simp [initializeRepository, hinit, hbusy, htr]
      | false =>
        cases l with
        | error e => simp [initializeRepository, hinit, hbusy, htr] at hok
        | ok _ =>
          cases u with
          | error e => simp [initializeRepository, hinit, hbusy, htr] at hok
          | ok _ => simp [initializeRepository, hinit, hbusy, htr]

theorem initializeRepository_error_shape {DB : Type} (s : Repo DB)
    (env : InitEnv) (e : RepoError) (hinit : s.hasBeenInitialized = false)
    (hbusy : s.isInitializing = false) (htr : isInsideTransaction s = false)
    (herr : (initializeRepository s env).error = some e) :
    initializeRepository s env
      = { state := { s with isInitializing := false }
          events := []
          error := some e
          ranBody := true } := by
  obtain ⟨i, cr, l, u⟩ := env
  cases i with
  | error e' => simpa [initializeRepository, hinit, hbusy, htr] using herr
  | ok _ =>
    cases cr with
    | error e' => simpa [initializeRepository, hinit, hbusy, htr] using herr
    | ok created =>
      cases created with
      | true => simp [initializeRepository, hinit, hbusy, htr] at herr
      | false =>
        cases l with
        | error e' => simpa [initializeRepository, hinit, hbusy, htr] using herr
        | ok _ =>
          cases u with
          | error e' => simpa [initializeRepository, hinit, hbusy, htr] using herr
          | ok _ => simp [initializeRepository, hinit, hbusy, htr] at herr

theorem initializeRepository_skip {DB : Type} (s : Repo DB) (env : InitEnv)
    (h : s.hasBeenInitialized = true ∨ s.isInitializing = true) :
    initializeRepository s env
      = { state := s, events := [], error := none, ranBody := false } := by
  rcases h with h | h
  · simp [initializeRepository, h]
  · by_cases hh : s.hasBeenInitialized <;> simp [initializeRepository, h, hh]

/-- C6: `initializeRepository` is idempotent and re-entrancy-safe: a
successful first call on a fresh repository emits exactly one
`didInitialize`, marks the repository initialized, and any further call
(including one made re-entrantly while `hasBeenInitialized` or
`isInitializing` is set) returns immediately without running the
initialisation body or touching the object store. -/
theorem C6_initialize_idempotent {DB : Type} (s : Repo DB) (env env2 : InitEnv)
    (hinit : s.hasBeenInitialized = false) (hbusy : s.isInitializing = false)
    (htr : isInsideTransaction s = false)
    (hok : (initializeRepository s env).error = none) :
    (initializeRepository s env).events.count Event.didInitialize = 1
  ∧ (initializeRepository s env).ranBody = true
  ∧ (initializeRepository s env).state.hasBeenInitialized = true
  ∧ (initializeRepository s env).state.isInitializing = false
  ∧ initializeRepository (initializeRepository s env).state env2
      = { state := (initializeRepository s env).state, events := [],
          error := none, ranBody := false }
  ∧ (∀ (s' : Repo DB) (env' : InitEnv),
      s'.hasBeenInitialized = true ∨ s'.isInitializing = true →
      initializeRepository s' env'
        = { state := s', events := [], error := none, ranBody := false }) := by
  have hshape := initializeRepository_success_shape s env hinit hbusy htr hok
  rw [hshape]
  refine ⟨rfl, rfl, rfl, rfl, ?_, initializeRepository_skip⟩
  exact initializeRepository_skip _ env2 (Or.inl rfl)

theorem C6_initialize_idempotent_witness :
    (⟨0, 0, "r", (), false, false⟩ : Repo Unit).hasBeenInitialized = false
  ∧ (initializeRepository (⟨0, 0, "r", (), false, false⟩ : Repo Unit)
      ⟨Except.ok (), Except.ok true, Except.ok (), Except.ok ()⟩).error = none
  ∧ (initializeRepository (⟨0, 0, "r", (), false, false⟩ : Repo Unit)
      ⟨Except.ok (), Except.ok true, Except.ok (), Except.ok ()⟩).events.count
        Event.didInitialize = 1
  ∧ initializeRepository
      (initializeRepository (⟨0, 0, "r", (), false, false⟩ : Repo Unit)
        ⟨Except.ok (), Except.ok true, Except.ok (), Except.ok ()⟩).state
      ⟨Except.ok (), Except.ok false, Except.ok (), Except.ok ()⟩
      = { state := (initializeRepository (⟨0, 0, "r", (), false, false⟩ : Repo Unit)
            ⟨Except.ok (), Except.ok true, Except.ok (), Except.ok ()⟩).state,
          events := [], error := none, ranBody := false } := by
  have h := C6_initialize_idempotent (⟨0, 0, "r", (), false, false⟩ : Repo Unit)
    ⟨Except.ok (), Except.ok true, Except.ok (), Except.ok ()⟩
    ⟨Except.ok (), Except.ok false, Except.ok (), Except.ok ()⟩
    rfl rfl rfl rfl
  exact ⟨rfl, rfl, h.1, h.2.2.2.2.1⟩

/-- C10: initialization failure is not sticky: when a step of the
initialisation body raises, the error propagates with `hasBeenInitialized`
still false and `isInitializing` reset to false by the finally block, and a
subsequent call with the failure gone re-runs the full initialisation body
and succeeds. -/
theorem C10_init_failure_not_sticky {DB : Type} (s : Repo DB)
    (env env' : InitEnv) (e : RepoError)
    (hinit : s.hasBeenInitialized = false) (hbusy : s.isInitializing = false)
    (htr : isInsideTransaction s = false)
    (herr : (initializeRepository s env).error = some e)
    (h1 : env'.initObjectDatabase = Except.ok ())
    (h2 : env'.createOutcome = Except.ok true) :
    (initializeRepository s env).state.hasBeenInitialized = false
  ∧ (initializeRepository s env).state.isInitializing = false
  ∧ (initializeRepository s env).ranBody = true
  ∧ initializeRepository (initializeRepository s env).state env'
      = { state := { (initializeRepository s env).state with
            hasBeenInitialized := true, isInitializing := false }
          events := [Event.didInitialize]
          error := none
          ranBody := true } := by
  have hshape := initializeRepository_error_shape s env e hinit hbusy htr herr
  rw [hshape]
  refine ⟨hinit, rfl, rfl, ?_⟩
  have heq : s.addr = s.repositoryAddr := by
    simpa [isInsideTransaction] using htr
  obtain ⟨i, cr, l, u⟩ := env'
  simp only at h1 h2
  rw [h1, h2]
  simp [initializeRepository, hinit, isInsideTransaction, heq]

theorem C10_init_failure_not_sticky_witness :
    (initializeRepository (⟨0, 0, "r", (), false, false⟩ : Repo Unit)
      ⟨Except.error RepoError.StoreError, Except.ok true, Except.ok (),
        Except.ok ()⟩).error = some RepoError.StoreError
  ∧ (initializeRepository (⟨0, 0, "r", (), false, false⟩ : Repo Unit)
      ⟨Except.error RepoError.StoreError, Except.ok true, Except.ok (),
        Except.ok ()⟩).state.hasBeenInitialized = false
  ∧ initializeRepository
      (initializeRepository (⟨0, 0, "r", (), false, false⟩ : Repo Unit)
        ⟨Except.error RepoError.StoreError, Except.ok true, Except.ok (),
          Except.ok ()⟩).state
      ⟨Except.ok (), Except.ok true, Except.ok (), Except.ok ()⟩
      = { state := { (initializeRepository (⟨0, 0, "r", (), false, false⟩ : Repo Unit)
            ⟨Except.error RepoError.StoreError, Except.ok true, Except.ok (),
              Except.ok ()⟩).state with
            hasBeenInitialized := true, isInitializing := false }
          events := [Event.didInitialize]
          error := none
          ranBody := true } := by
  have h := C10_init_failure_not_sticky (⟨0, 0, "r", (), false, false⟩ : Repo Unit)
    ⟨Except.error RepoError.StoreError, Except.ok true, Except.ok (), Except.ok ()⟩
    ⟨Except.ok (), Except.ok true, Except.ok (), Except.ok ()⟩
    RepoError.StoreError rfl rfl rfl rfl rfl rfl
  exact ⟨rfl, h.1, h.2.2.2⟩

theorem unserialiseLoop_yields {V : Type} (classes : List CollectionClass)
    (keyOf : V → String) :
    ∀ (results : List (StoreResult V)) (c : Nat) (items : List (Item V)) (y : Nat),
      unserialiseLoop classes keyOf results c = Except.ok (items, y) →
      y = (c + results.length) / RESPIRATION_RATE - c / RESPIRATION_RATE := by
  intro results
  induction results with
  | nil =>
    intro c items y h
    simp only [unserialiseLoop, Except.ok.injEq, Prod.mk.injEq] at h
    simp [RESPIRATION_RATE]
    omega
  | cons r rest ih =>
    intro c items y h
    obtain ⟨rcls, rv⟩ := r
    cases rcls with
    | nil => simp [unserialiseLoop] at h
    | cons rc rcs =>
      simp only [unserialiseLoop] at h
      cases hcc : createCollectionFromItemClassName classes rc with
      | error e => rw [hcc] at h; simp at h
      | ok col =>
        rw [hcc] at h
        cases hrec : unserialiseLoop classes keyOf rest (c + 1) with
        | error e => rw [hrec] at h; simp at h
        | ok p =>
          obtain ⟨its, y2⟩ := p
          rw [hrec] at h
          simp only [Except.ok.injEq, Prod.mk.injEq] at h
          obtain ⟨hitems, hy⟩ := h
          have hrec2 := ih (c + 1) its y2 hrec
          simp only [RESPIRATION_RATE] at hrec2 hy ⊢
          simp only [List.length_cons]
          split at hy <;> omega

theorem forEachItems_yields {V : Type} (classes : List CollectionClass)
    (keyOf : V → String) :
    ∀ (results : List (StoreResult V)) (items : List (Item V)) (y : Nat),
      forEachItems classes keyOf results = Except.ok (items, y) → y = 0 := by
  intro results
  induction results with
  | nil =>
    intro items y h
    simp only [forEachItems, Except.ok.injEq, Prod.mk.injEq] at h
    omega
  | cons r rest ih =>
    intro items y h
    obtain ⟨rcls, rv⟩ := r
    cases rcls with
    | nil => simp [forEachItems] at h
    | cons rc rcs =>
      simp only [forEachItems] at h
      cases hcc : createCollectionFromItemClassName classes rc with
      | error e => rw [hcc] at h; simp at h
      | ok col =>
        rw [hcc] at h
        cases hrec : forEachItems classes keyOf rest with
        | error e => rw [hrec] at h; simp at h
        | ok p =>
          obtain ⟨its, y2⟩ := p
          rw [hrec] at h
          simp only [Except.ok.injEq, Prod.mk.injEq] at h
          exact h.2 ▸ ih its y2 hrec

set_option maxRecDepth 20000 in
/-- C3 counterexample: the claim extends the 250-item respiration pacing to
`forEachItems`, but the source body of `forEachItems` contains no iteration
counter and no `util.timeout(0)` call: on 251 store records it performs 0
cooperative yields, although the claimed pacing demands at least
⌊251/250⌋ = 1. -/
theorem C3_forEachItems_no_respiration_counterexample :
    (forEachItems [⟨"A", ["A"]⟩] (fun _ : Nat => "k")
        (List.replicate 251 ⟨["A"], 0⟩)).map (fun p => p.2)
      = Except.ok 0
  ∧ 1 ≤ 251 / RESPIRATION_RATE := by
  constructor
  · rfl
  · decide

/-- C3 (amended): in `getItems` and `findItems` the per-item unserialisation
loop yields cooperatively every 250 items processed — exactly
⌊N/250⌋ yields for N store results, hence at least ⌊N/250⌋ for N > 250 —
while `forEachItems` performs no such periodic yield (it awaits the per-item
callback instead). -/
theorem C3_respiration_amended {V : Type} (classes : List CollectionClass)
    (keyOf : V → String) (items0 : List (Item V))
    (results : List (StoreResult V)) (items itemsF : List (Item V)) (y yF : Nat)
    (h0 : items0.length ≠ 0)
    (hU : unserialiseLoop classes keyOf results 0 = Except.ok (items, y))
    (hF : forEachItems classes keyOf results = Except.ok (itemsF, yF)) :
    getItems classes keyOf items0 results = Except.ok (items, y)
  ∧ findItems classes keyOf results = Except.ok (items, y)
  ∧ y = results.length / RESPIRATION_RATE
  ∧ RESPIRATION_RATE = 250
  ∧ yF = 0 := by
  refine ⟨by simp [getItems, h0, hU], hU, ?_, rfl,
    forEachItems_yields classes keyOf results itemsF yF hF⟩
  have hy := unserialiseLoop_yields classes keyOf results 0 items y hU
  simpa using hy

set_option maxRecDepth 20000 in
theorem C3_respiration_amended_witness :
    ((List.replicate 251 (⟨["A"], 0⟩ : StoreResult Nat)).length = 251)
  ∧ unserialiseLoop [⟨"A", ["A"]⟩] (fun _ : Nat => "k")
      (List.replicate 251 ⟨["A"], 0⟩) 0
      = Except.ok
          (List.replicate 251 (unserializeItem (fun _ : Nat => "k") ⟨"A", ["A"]⟩ 0), 1)
  ∧ getItems [⟨"A", ["A"]⟩] (fun _ : Nat => "k") [⟨"A", ["A"], "k", 0, false⟩]
      (List.replicate 251 ⟨["A"], 0⟩)
      = Except.ok
          (List.replicate 251 (unserializeItem (fun _ : Nat => "k") ⟨"A", ["A"]⟩ 0), 1)
  ∧ (1 : Nat) = 251 / RESPIRATION_RATE := by
  have h := C3_respiration_amended [⟨"A", ["A"]⟩] (fun _ : Nat => "k")
    [⟨"A", ["A"], "k", 0, false⟩] (List.replicate 251 ⟨["A"], 0⟩)
    (List.replicate 251 (unserializeItem (fun _ : Nat => "k") ⟨"A", ["A"]⟩ 0))
    (List.replicate 251 (unserializeItem (fun _ : Nat => "k") ⟨"A", ["A"]⟩ 0))
    1 0 (by decide) rfl rfl
  refine ⟨rfl, rfl, h.1, ?_⟩
  have h3 := h.2.2.1
  simpa using h3

end KindaLocalRepository
